import Mathlib

/-!
Shallow embedding of the Turnstile-Solver repository
(`api_solver.py`, `async_solver.py`, `sync_solver.py`).

Handles (pages, browsers) are modelled as natural numbers.  Pool state is
modelled with explicit lists: `available` is the FIFO deque (head = oldest,
`append` at the tail mirrors `deque.append`, popping the head mirrors
`popleft`), `in_use` is the membership set.  Elapsed wall-clock time is an
explicit `Nat` argument (seconds), matching the `time.time() - start_time`
comparisons in the source.  Exceptions are modelled as explicit `Bool` /
`Except` results.
-/

namespace TurnstileSolver

/-- `TurnstileAPIResult` dataclass from `api_solver.py` (lines 41-46). -/
structure TurnstileAPIResult where
  result : Option String
  elapsed_time_seconds : Option Nat
  status : String
  error : Option String
deriving Repr, DecidableEq

/-- `TurnstileResult` dataclass from `async_solver.py` / `sync_solver.py`. -/
structure TurnstileResult where
  turnstile_value : Option String
  elapsed_time_seconds : Nat
  status : String
  reason : Option String
deriving Repr, DecidableEq

/-! ## PagePool (`api_solver.py` lines 48-146) -/

/-- State of a `PagePool`: `available_pages` deque, `in_use_pages` set,
a fresh-id counter standing for `context.new_page()`, and `max_size`
(10 in the source, line 52). -/
structure PagePoolState where
  available : List Nat
  inUse : List Nat
  nextId : Nat
  maxSize : Nat
deriving Repr, DecidableEq

/-- `max_wait_time = 30` seconds (`api_solver.py` line 58). -/
def pageMaxWaitTime : Nat := 30

/-- Poll interval of the `get_page` wait loop, in tenths of a second:
`await asyncio.sleep(0.5)` (`api_solver.py` line 125). -/
def pagePollIntervalDs : Nat := 5

/-- Poll interval of the `get_browser` wait loop, in tenths of a second:
`await asyncio.sleep(0.1)` (`api_solver.py` line 177). -/
def browserPollIntervalDs : Nat := 1

/-- `PagePool.initialize` (lines 98-103): creates `min_size = 1` page into
`available`. Page ids are assigned from the fresh counter. -/
def pagePoolInit : PagePoolState :=
  { available := [0], inUse := [], nextId := 1, maxSize := 10 }

/-- Outcome of one iteration of a pool acquire loop. -/
inductive AcquireOutcome where
  | acquired (h : Nat)
  | waits
  | timesOut
deriving Repr, DecidableEq

/-- One iteration of `PagePool.get_page` (lines 105-125), at elapsed time
`t` seconds since the acquire started: pop the oldest available page, else
create a new page while `|in_use| < max_size`, else raise `TimeoutError`
once `t` exceeds `max_wait_time`, else sleep and retry. -/
def getPageStep (s : PagePoolState) (t : Nat) : AcquireOutcome × PagePoolState :=
  match s.available with
  | p :: rest =>
      (AcquireOutcome.acquired p, { s with available := rest, inUse := p :: s.inUse })
  | [] =>
      if s.inUse.length < s.maxSize then
        (AcquireOutcome.acquired s.nextId,
          { s with inUse := s.nextId :: s.inUse, nextId := s.nextId + 1 })
      else if pageMaxWaitTime < t then
        (AcquireOutcome.timesOut, s)
      else
        (AcquireOutcome.waits, s)

/-- Which cleanup steps of `PagePool._cleanup_page` (lines 60-96) raise. -/
structure CleanupFailures where
  gotoFails : Bool
  localFails : Bool
  sessionFails : Bool
  cookieFails : Bool
deriving Repr, DecidableEq

/-- Residual per-request state carried by a page. -/
structure PageContents where
  cookies : Bool
  localStorage : Bool
  sessionStorage : Bool
deriving Repr, DecidableEq

/-- `PagePool._cleanup_page` (lines 60-96).  The whole body sits inside
`try ... except Exception`, and each clearing sub-step has its own inner
`try/except`, so no exception ever escapes: the second component (did an
exception propagate to the caller?) is `false` on every path.  If
`page.goto("about:blank")` raises, control jumps to the outer `except`
and none of the clearing steps run. -/
def cleanupPage (f : CleanupFailures) (pg : PageContents) : PageContents × Bool :=
  if f.gotoFails then
    (pg, false)
  else
    let pg1 := if f.localFails then pg else { pg with localStorage := false }
    let pg2 := if f.sessionFails then pg1 else { pg1 with sessionStorage := false }
    let pg3 := if f.cookieFails then pg2 else { pg2 with cookies := false }
    (pg3, false)

/-- Fate of a page handle after `return_page`. -/
inductive PageFate where
  | pooled (contents : PageContents)
  | destroyed
  | ignored
deriving Repr, DecidableEq

/-- `PagePool.return_page` (lines 127-146): a page not in `in_use_pages` is
ignored; otherwise it is removed from `in_use`, cleaned, and appended to
`available` while `len(available) < max_size`, else closed.  The `except`
branch closes the page if cleanup raised. -/
def returnPage (f : CleanupFailures) (pg : PageContents) (s : PagePoolState)
    (p : Nat) : PagePoolState × PageFate :=
  if p ∈ s.inUse then
    if (cleanupPage f pg).2 then
      ({ s with inUse := s.inUse.erase p }, PageFate.destroyed)
    else if s.available.length < s.maxSize then
      ({ s with available := s.available ++ [p], inUse := s.inUse.erase p },
        PageFate.pooled (cleanupPage f pg).1)
    else
      ({ s with inUse := s.inUse.erase p }, PageFate.destroyed)
  else
    (s, PageFate.ignored)

/-! ## BrowserPool (`api_solver.py` lines 148-193) -/

/-- State of a `BrowserPool`: `available_browsers` deque, `in_use_browsers`
set, `max_browsers` (10 for the API server). -/
structure BrowserPoolState where
  available : List Nat
  inUse : List Nat
  maxBrowsers : Nat
deriving Repr, DecidableEq

/-- `BrowserPool.initialize` (lines 158-164): launches `max_browsers`
browsers into `available`. -/
def browserPoolInit : BrowserPoolState :=
  { available := List.range 10, inUse := [], maxBrowsers := 10 }

/-- One iteration of `BrowserPool.get_browser` (lines 173-180): pop the
oldest available browser and add it to `in_use`; if none is available the
coroutine sleeps and re-checks (while still holding the pool lock).  There
is no creation branch and no timeout check, so the elapsed time `t` is
never consulted. -/
def getBrowserStep (s : BrowserPoolState) (_t : Nat) : AcquireOutcome × BrowserPoolState :=
  match s.available with
  | b :: rest =>
      (AcquireOutcome.acquired b, { s with available := rest, inUse := b :: s.inUse })
  | [] => (AcquireOutcome.waits, s)

/-- `BrowserPool.return_browser` (lines 182-186): `in_use_browsers.remove`
raises `KeyError` when the browser is not in the set, in which case the
append never executes and the state is unchanged.  The second component
records whether `KeyError` was raised. -/
def returnBrowser (s : BrowserPoolState) (b : Nat) : BrowserPoolState × Bool :=
  if b ∈ s.inUse then
    ({ s with available := s.available ++ [b], inUse := s.inUse.erase b }, false)
  else
    (s, true)

/-! ## Widget polling protocol -/

/-- Environment seen by the polling loops: what the widget's hidden
response field reads at the i-th poll (`eval_on_selector`, 0-indexed),
whether `query_selector` finds the element at the i-th poll, and what
`get_attribute("value")` returns there (`none` models a null attribute). -/
structure Widget where
  evalVal : Nat → String
  elem : Nat → Bool
  attrVal : Nat → Option String

/-- How the polling loop of `_solve_turnstile` / `_get_turnstile_response`
exits. -/
inductive PollExit where
  | found (v : Option String)
  | exhausted
  | elementGone
deriving Repr, DecidableEq

/-- Polling loop of `TurnstileAPIServer._solve_turnstile`
(`api_solver.py` lines 293-326), recursing on the remaining attempts
(`fuel = max_attempts - attempts`).  Returns the exit, the number of field
polls performed, and the number of resize-and-click actions performed
(each empty poll resizes the widget then clicks it, lines 303-304).  The
poll index equals `attempts`, which only increments on empty polls. -/
def apiPollAux (w : Widget) : Nat → Nat → PollExit × Nat × Nat
  | _, 0 => (PollExit.exhausted, 0, 0)
  | attempts, fuel + 1 =>
      if w.evalVal attempts = "" then
        ((apiPollAux w (attempts + 1) fuel).1,
         (apiPollAux w (attempts + 1) fuel).2.1 + 1,
         (apiPollAux w (attempts + 1) fuel).2.2 + 1)
      else if w.elem attempts then
        (PollExit.found (w.attrVal attempts), 1, 0)
      else
        (PollExit.elementGone, 1, 0)

/-- The full polling loop with `max_attempts = 10` (line 293). -/
def apiPoll (w : Widget) : PollExit × Nat × Nat := apiPollAux w 0 10

/-- Mapping from the loop exit to the returned `TurnstileAPIResult`
(lines 308-333): a found element yields the default `"success"` status
carrying the re-read attribute value; both exhaustion and the `break` on a
vanished element fall through to the `"failure"` result. -/
def apiMapExit (e : PollExit) (elapsed : Nat) : TurnstileAPIResult :=
  match e with
  | PollExit.found v =>
      { result := v, elapsed_time_seconds := some elapsed
        status := "success", error := none }
  | PollExit.exhausted =>
      { result := none, elapsed_time_seconds := none
        status := "failure", error := some "Max attempts reached without solution" }
  | PollExit.elementGone =>
      { result := none, elapsed_time_seconds := none
        status := "failure", error := some "Max attempts reached without solution" }

/-- Body of `_solve_turnstile` after navigation, as a function of the
widget behaviour.  The `invisible` parameter is accepted by
`_solve_turnstile` (line 250) but never read in its body: the polling loop
resizes and clicks unconditionally. -/
def apiSolveBody (w : Widget) (invisible : Bool) (elapsed : Nat) :
    TurnstileAPIResult × Nat × Nat :=
  let r := apiPoll w
  (apiMapExit r.1 elapsed, r.2)

/-- `AsyncTurnstileSolver._get_turnstile_response`
(`async_solver.py` lines 88-114): like the API loop, but the
resize-and-click is skipped when `invisible` is set (lines 102-104), and
the return value is the raw `Optional[str]` (`none` on exhaustion, on a
vanished element, and on a null attribute). -/
def asyncPollAux (w : Widget) (invisible : Bool) : Nat → Nat → Option String × Nat × Nat
  | _, 0 => (none, 0, 0)
  | attempts, fuel + 1 =>
      if w.evalVal attempts = "" then
        ((asyncPollAux w invisible (attempts + 1) fuel).1,
         (asyncPollAux w invisible (attempts + 1) fuel).2.1 + 1,
         if invisible then (asyncPollAux w invisible (attempts + 1) fuel).2.2
         else (asyncPollAux w invisible (attempts + 1) fuel).2.2 + 1)
      else if w.elem attempts then
        (w.attrVal attempts, 1, 0)
      else
        (none, 1, 0)

/-- The full async polling loop with `max_attempts = 10`. -/
def asyncGetTurnstileResponse (w : Widget) (invisible : Bool) :
    Option String × Nat × Nat :=
  asyncPollAux w invisible 0 10

/-- Classification of the poll value in `AsyncTurnstileSolver.solve`
(lines 155-177): Python's `if not turnstile_value` treats both `None` and
the empty string as failure. -/
def classifyTurnstileValue (v : Option String) (elapsed : Nat) : TurnstileResult :=
  match v with
  | none =>
      { turnstile_value := none, elapsed_time_seconds := elapsed
        status := "failure", reason := some "Max attempts reached without token retrieval" }
  | some s =>
      if s = "" then
        { turnstile_value := none, elapsed_time_seconds := elapsed
          status := "failure", reason := some "Max attempts reached without token retrieval" }
      else
        { turnstile_value := some s, elapsed_time_seconds := elapsed
          status := "success", reason := none }

/-- `AsyncTurnstileSolver.solve` boundary (lines 130-203): the protocol
(setup page + polling) either produces a value or raises.  The inner
`except` (lines 179-181) logs and re-raises; the outer
`except Exception` (lines 193-201) catches it and returns an
`"error"`-status result with the stringified cause, so the caller always
receives a `TurnstileResult`. -/
def asyncSolve (proto : Except String (Option String)) (elapsed : Nat) :
    TurnstileResult :=
  match proto with
  | Except.error e =>
      { turnstile_value := none, elapsed_time_seconds := elapsed
        status := "error", reason := some e }
  | Except.ok v => classifyTurnstileValue v elapsed

/-- `AsyncTurnstileSolver.solve` on a run where navigation succeeds and
the polling loop runs against widget `w`. -/
def asyncSolveOk (w : Widget) (invisible : Bool) (elapsed : Nat) : TurnstileResult :=
  asyncSolve (Except.ok (asyncGetTurnstileResponse w invisible).1) elapsed

/-- `TurnstileSolver._get_turnstile_response` (`sync_solver.py` lines
147-171): identical control flow to the API loop (always resizes and
clicks on an empty poll; there is no `invisible` parameter), returning the
raw `Optional[str]`. -/
def syncPollAux (w : Widget) : Nat → Nat → Option String × Nat × Nat
  | _, 0 => (none, 0, 0)
  | attempts, fuel + 1 =>
      if w.evalVal attempts = "" then
        ((syncPollAux w (attempts + 1) fuel).1,
         (syncPollAux w (attempts + 1) fuel).2.1 + 1,
         (syncPollAux w (attempts + 1) fuel).2.2 + 1)
      else if w.elem attempts then
        (w.attrVal attempts, 1, 0)
      else
        (none, 1, 0)

/-- The full sync polling loop with `max_attempts = 10`. -/
def syncGetTurnstileResponse (w : Widget) : Option String × Nat × Nat :=
  syncPollAux w 0 10

/-- `TurnstileSolver.solve` boundary (`sync_solver.py` lines 173-224): the
body is wrapped in `try ... finally browser.close()` with **no** `except`
clause, so an exception raised during setup or polling propagates to the
caller (`Except.error`); only a completed protocol yields a
`TurnstileResult`, classified exactly as in the async solver. -/
def syncSolve (proto : Except String (Option String)) (elapsed : Nat) :
    Except String TurnstileResult :=
  match proto with
  | Except.error e => Except.error e
  | Except.ok v => Except.ok (classifyTurnstileValue v elapsed)

/-! ## The pooled resolver (`TurnstileAPIServer._solve_turnstile`, lines 249-354) -/

/-- Whether the navigation part of the protocol (route setup + `goto`,
lines 271-289) completes or raises. -/
inductive ProtoRun where
  | runs
  | throws (msg : String)
deriving Repr, DecidableEq

/-- Order-sensitive record of successful pool returns. -/
inductive ReleaseKind where
  | page
  | browser
deriving Repr, DecidableEq

/-- `TurnstileAPIServer._solve_turnstile` (lines 249-354), restricted to
one browser checkout iteration at elapsed time `tB` and one page checkout
iteration at elapsed time `tP`.  `none` models the still-blocked wait
branches (no terminal outcome yet).  A `TimeoutError` from `get_page` is
caught by the inner `except` (line 335) and converted to an
`"error"`-status result; the `finally` block (lines 342-346) then skips
`return_page` (the local `page` is still `None`) and returns only the
browser.  When both checkouts succeeded, the inner `try` produces either
the polling result or the converted exception result, and the `finally`
returns the page first and the browser second. -/
def solveTurnstile (bp : BrowserPoolState) (pp : PagePoolState)
    (pg : PageContents) (nav : ProtoRun) (w : Widget) (f : CleanupFailures)
    (tB tP elapsed : Nat) :
    Option (TurnstileAPIResult × BrowserPoolState × PagePoolState × List ReleaseKind) :=
  match getBrowserStep bp tB with
  | (AcquireOutcome.acquired b, bp1) =>
      match getPageStep pp tP with
      | (AcquireOutcome.acquired p, pp1) =>
          let r : TurnstileAPIResult :=
            match nav with
            | ProtoRun.throws e =>
                { result := none, elapsed_time_seconds := none
                  status := "error", error := some e }
            | ProtoRun.runs => apiMapExit (apiPoll w).1 elapsed
          let pp2 := (returnPage f pg pp1 p).1
          let br := returnBrowser bp1 b
          if br.2 then
            some ({ result := none, elapsed_time_seconds := none
                    status := "error", error := some "KeyError" },
                  br.1, pp2, [ReleaseKind.page])
          else
            some (r, br.1, pp2, [ReleaseKind.page, ReleaseKind.browser])
      | (AcquireOutcome.timesOut, _) =>
          let br := returnBrowser bp1 b
          if br.2 then
            some ({ result := none, elapsed_time_seconds := none
                    status := "error", error := some "KeyError" },
                  br.1, pp, [])
          else
            some ({ result := none, elapsed_time_seconds := none
                    status := "error", error := some "Timeout waiting for available page" },
                  br.1, pp, [ReleaseKind.browser])
      | (AcquireOutcome.waits, _) => none
  | _ => none

/-- Pool occupancy `|available| + |in_use|`. -/
def pOcc (s : PagePoolState) : Nat := s.available.length + s.inUse.length

/-- Pool occupancy `|available| + |in_use|`. -/
def bOcc (s : BrowserPoolState) : Nat := s.available.length + s.inUse.length

/-- A widget whose response field never fills in (with the element always
present and a null attribute). -/
def widgetEmpty : Widget :=
  { evalVal := fun _ => "", elem := fun _ => true, attrVal := fun _ => none }

/-- A widget whose response field reads empty on the first two polls and
non-empty from the third poll on. -/
def widgetThird : Widget :=
  { evalVal := fun i => if i < 2 then "" else "tok"
    elem := fun _ => true
    attrVal := fun _ => some "tok" }

/-- A cleanup run in which no step raises. -/
def noFailures : CleanupFailures := ⟨false, false, false, false⟩

/-- A cleanup run in which `page.goto("about:blank")` raises. -/
def gotoFailure : CleanupFailures := ⟨true, false, false, false⟩

/-- A page carrying no residual request state. -/
def cleanContents : PageContents := ⟨false, false, false⟩

/-- A page still carrying cookies and storage from the previous request. -/
def dirtyContents : PageContents := ⟨true, true, true⟩

/-- A page pool with all ten slots in use and nothing available. -/
def fullPagePool : PagePoolState := ⟨[], List.range 10, 12, 10⟩

/-- A browser pool with all ten browsers checked out. -/
def fullBrowserPool : BrowserPoolState := ⟨[], List.range 10, 10⟩

/-! ## Reachable pool states -/

/-- Pool states reachable from `PagePool.initialize` by acquire and
release operations. -/
inductive PageReach : PagePoolState → Prop where
  | init : PageReach pagePoolInit
  | acq (s : PagePoolState) (t : Nat) :
      PageReach s → PageReach (getPageStep s t).2
  | rel (s : PagePoolState) (f : CleanupFailures) (pg : PageContents) (p : Nat) :
      PageReach s → PageReach (returnPage f pg s p).1

/-- Pool states reachable from `BrowserPool.initialize` by acquire and
release operations. -/
inductive BrowserReach : BrowserPoolState → Prop where
  | init : BrowserReach browserPoolInit
  | acq (s : BrowserPoolState) (t : Nat) :
      BrowserReach s → BrowserReach (getBrowserStep s t).2
  | rel (s : BrowserPoolState) (b : Nat) :
      BrowserReach s → BrowserReach (returnBrowser s b).1

/-- The structural pool invariant of the spec: bounded occupancy,
duplicate-free queues, and disjointness of `available` and `in_use`.
For the page pool the fresh-id counter also bounds every held handle. -/
def pagePoolInv (s : PagePoolState) : Prop :=
  s.available.length + s.inUse.length ≤ s.maxSize ∧
  s.available.Nodup ∧ s.inUse.Nodup ∧
  (∀ h ∈ s.available, h ∉ s.inUse) ∧
  (∀ h ∈ s.available, h < s.nextId) ∧
  (∀ h ∈ s.inUse, h < s.nextId) ∧
  s.maxSize = 10

/-- The structural pool invariant for the browser pool. -/
def browserPoolInv (s : BrowserPoolState) : Prop :=
  s.available.length + s.inUse.length ≤ s.maxBrowsers ∧
  s.available.Nodup ∧ s.inUse.Nodup ∧
  (∀ h ∈ s.available, h ∉ s.inUse) ∧
  s.maxBrowsers = 10

/-! ## Invariant preservation -/

/-- `_cleanup_page` wraps its whole body in `try ... except Exception`
(lines 62, 95), so no exception ever escapes it. -/
lemma cleanupPage_no_raise (f : CleanupFailures) (pg : PageContents) :
    (cleanupPage f pg).2 = false := by
  unfold cleanupPage
  split <;> rfl

lemma pagePoolInv_init : pagePoolInv pagePoolInit := by
  refine ⟨by decide, by decide, by decide, ?_, ?_, ?_, rfl⟩ <;> decide

lemma browserPoolInv_init : browserPoolInv browserPoolInit := by
  refine ⟨by decide, by decide, by decide, ?_, rfl⟩
  decide

lemma pagePoolInv_getPageStep (s : PagePoolState) (t : Nat)
    (h : pagePoolInv s) : pagePoolInv (getPageStep s t).2 := by
  obtain ⟨av, iu, nid, mx⟩ := s
  unfold pagePoolInv at h ⊢
  obtain ⟨hlen, hnav, hnu, hdisj, hbav, hbu, hmax⟩ := h
  dsimp only at hlen hnav hnu hdisj hbav hbu hmax
  rcases av with _ | ⟨p, rest⟩
  · simp only [getPageStep]
    split
    · next hlt =>
        refine ⟨?_, List.nodup_nil, ?_, ?_, ?_, ?_, hmax⟩
        · simp only [List.length_nil, List.length_cons] at hlen ⊢
          omega
        · exact List.nodup_cons.mpr ⟨fun hc => absurd (hbu _ hc) (lt_irrefl nid), hnu⟩
        · intro h hm
          exact absurd hm (List.not_mem_nil h)
        · intro h hm
          exact absurd hm (List.not_mem_nil h)
        · intro h hm
          rcases List.mem_cons.mp hm with rfl | hm'
          · exact Nat.lt_succ_self _
          · exact Nat.lt_succ_of_lt (hbu h hm')
    · split <;> exact ⟨hlen, hnav, hnu, hdisj, hbav, hbu, hmax⟩
  · simp only [getPageStep]
    have hpni : p ∉ iu := hdisj p (List.mem_cons_self p rest)
    refine ⟨?_, hnav.of_cons, List.nodup_cons.mpr ⟨hpni, hnu⟩, ?_, ?_, ?_, hmax⟩
    · simp only [List.length_cons] at hlen ⊢
      omega
    · intro h hm
      simp only [List.mem_cons]
      push_neg
      exact ⟨fun heq => (List.nodup_cons.mp hnav).1 (heq ▸ hm),
        hdisj h (List.mem_cons_of_mem p hm)⟩
    · intro h hm
      exact hbav h (List.mem_cons_of_mem p hm)
    · intro h hm
      rcases List.mem_cons.mp hm with rfl | hm'
      · exact hbav _ (List.mem_cons_self _ _)
      · exact hbu h hm'

lemma pagePoolInv_returnPage (s : PagePoolState) (f : CleanupFailures)
    (pg : PageContents) (p : Nat) (h : pagePoolInv s) :
    pagePoolInv (returnPage f pg s p).1 := by
  unfold pagePoolInv at h ⊢
  obtain ⟨hlen, hnav, hnu, hdisj, hbav, hbu, hmax⟩ := h
  unfold returnPage
  rw [cleanupPage_no_raise]
  simp only [Bool.false_eq_true, if_false]
  split
  · next hmem =>
      have hpna : p ∉ s.available := fun hc => hdisj p hc hmem
      have herase : (s.inUse.erase p).length = s.inUse.length - 1 :=
        List.length_erase_of_mem hmem
      have hsub : ∀ h, h ∈ s.inUse.erase p → h ∈ s.inUse := fun h hc =>
        List.mem_of_mem_erase hc
      have hne : (s.inUse.erase p).Nodup := hnu.erase p
      have hpos : 1 ≤ s.inUse.length := List.length_pos_of_mem hmem
      split
      · next hle =>
          refine ⟨?_, ?_, hne, ?_, ?_, fun h hm => hbu h (hsub h hm), hmax⟩
          · simp only [List.length_append, List.length_singleton, herase]
            omega
          · rw [List.nodup_append]
            refine ⟨hnav, List.nodup_singleton p, ?_⟩
            intro a ha hb
            simp only [List.mem_singleton] at hb
            exact hpna (hb ▸ ha)
          · intro h hm
            rcases List.mem_append.mp hm with hm' | hm'
            · exact fun hc => hdisj h hm' (hsub h hc)
            · simp only [List.mem_singleton] at hm'
              subst hm'
              exact fun hc => ((hnu.mem_erase_iff).mp hc).1 rfl
          · intro h hm
            rcases List.mem_append.mp hm with hm' | hm'
            · exact hbav h hm'
            · simp only [List.mem_singleton] at hm'
              exact hm' ▸ hbu p hmem
      · refine ⟨?_, hnav, hne, fun h hm hc => hdisj h hm (hsub h hc),
          hbav, fun h hm => hbu h (hsub h hm), hmax⟩
        simp only [herase]
        omega
  · exact ⟨hlen, hnav, hnu, hdisj, hbav, hbu, hmax⟩

lemma browserPoolInv_getBrowserStep (s : BrowserPoolState) (t : Nat)
    (h : browserPoolInv s) : browserPoolInv (getBrowserStep s t).2 := by
  obtain ⟨av, iu, mx⟩ := s
  unfold browserPoolInv at h ⊢
  obtain ⟨hlen, hnav, hnu, hdisj, hmax⟩ := h
  dsimp only at hlen hnav hnu hdisj hmax
  rcases av with _ | ⟨b, rest⟩
  · exact ⟨hlen, hnav, hnu, hdisj, hmax⟩
  · simp only [getBrowserStep]
    have hbni : b ∉ iu := hdisj b (List.mem_cons_self b rest)
    refine ⟨?_, hnav.of_cons, List.nodup_cons.mpr ⟨hbni, hnu⟩, ?_, hmax⟩
    · simp only [List.length_cons] at hlen ⊢
      omega
    · intro h hm
      simp only [List.mem_cons]
      push_neg
      exact ⟨fun heq => (List.nodup_cons.mp hnav).1 (heq ▸ hm),
        hdisj h (List.mem_cons_of_mem b hm)⟩

lemma browserPoolInv_returnBrowser (s : BrowserPoolState) (b : Nat)
    (h : browserPoolInv s) : browserPoolInv (returnBrowser s b).1 := by
  unfold browserPoolInv at h ⊢
  obtain ⟨hlen, hnav, hnu, hdisj, hmax⟩ := h
  unfold returnBrowser
  split
  · next hmem =>
      have hbna : b ∉ s.available := fun hc => hdisj b hc hmem
      have herase : (s.inUse.erase b).length = s.inUse.length - 1 :=
        List.length_erase_of_mem hmem
      have hsub : ∀ h, h ∈ s.inUse.erase b → h ∈ s.inUse := fun h hc =>
        List.mem_of_mem_erase hc
      have hpos : 1 ≤ s.inUse.length := List.length_pos_of_mem hmem
      refine ⟨?_, ?_, hnu.erase b, ?_, hmax⟩
      · simp only [List.length_append, List.length_singleton, herase]
        omega
      · rw [List.nodup_append]
        refine ⟨hnav, List.nodup_singleton b, ?_⟩
        intro a ha hc
        simp only [List.mem_singleton] at hc
        exact hbna (hc ▸ ha)
      · intro h hm
        rcases List.mem_append.mp hm with hm' | hm'
        · exact fun hc => hdisj h hm' (hsub h hc)
        · simp only [List.mem_singleton] at hm'
          subst hm'
          exact fun hc => ((hnu.mem_erase_iff).mp hc).1 rfl
  · exact ⟨hlen, hnav, hnu, hdisj, hmax⟩

lemma getBrowserStep_acquired_shape (s : BrowserPoolState) (t b : Nat)
    (s1 : BrowserPoolState)
    (h : getBrowserStep s t = (AcquireOutcome.acquired b, s1)) :
    ∃ rest, s.available = b :: rest ∧
      s1 = { s with available := rest, inUse := b :: s.inUse } := by
  obtain ⟨av, iu, mx⟩ := s
  rcases av with _ | ⟨q, rest⟩
  · simp [getBrowserStep] at h
  · simp only [getBrowserStep, Prod.mk.injEq, AcquireOutcome.acquired.injEq] at h
    obtain ⟨rfl, rfl⟩ := h
    exact ⟨rest, rfl, rfl⟩

lemma getPageStep_acquired_shape (s : PagePoolState) (t p : Nat)
    (s1 : PagePoolState)
    (h : getPageStep s t = (AcquireOutcome.acquired p, s1)) :
    (∃ rest, s.available = p :: rest ∧
       s1 = { s with available := rest, inUse := p :: s.inUse }) ∨
    (s.available = [] ∧ s.inUse.length < s.maxSize ∧ p = s.nextId ∧
       s1 = { s with inUse := s.nextId :: s.inUse, nextId := s.nextId + 1 }) := by
  obtain ⟨av, iu, nid, mx⟩ := s
  rcases av with _ | ⟨q, rest⟩
  · simp only [getPageStep] at h
    split at h
    · next hlt =>
        simp only [Prod.mk.injEq, AcquireOutcome.acquired.injEq] at h
        obtain ⟨rfl, rfl⟩ := h
        exact Or.inr ⟨rfl, hlt, rfl, rfl⟩
    · split at h <;> simp at h
  · simp only [getPageStep, Prod.mk.injEq, AcquireOutcome.acquired.injEq] at h
    obtain ⟨rfl, rfl⟩ := h
    exact Or.inl ⟨rest, rfl, rfl⟩

lemma getPageStep_acquired_fresh (s : PagePoolState) (t p : Nat)
    (s1 : PagePoolState) (hinv : pagePoolInv s)
    (h : getPageStep s t = (AcquireOutcome.acquired p, s1)) :
    p ∉ s.inUse ∧ p ∈ s1.inUse ∧ p ∉ s1.available := by
  obtain ⟨hlen, hnav, hnu, hdisj, hbav, hbu, hmax⟩ := hinv
  rcases getPageStep_acquired_shape s t p s1 h with ⟨rest, hav, rfl⟩ | ⟨hav, hlt, rfl, rfl⟩
  · refine ⟨hdisj p (by rw [hav]; exact List.mem_cons_self p rest), ?_, ?_⟩
    · exact List.mem_cons_self p s.inUse
    · have hn : (p :: rest).Nodup := hav ▸ hnav
      exact (List.nodup_cons.mp hn).1
  · refine ⟨fun hc => absurd (hbu _ hc) (lt_irrefl _), ?_, ?_⟩
    · exact List.mem_cons_self s.nextId s.inUse
    · show _ ∉ s.available
      rw [hav]
      exact List.not_mem_nil _

lemma getBrowserStep_acquired_fresh (s : BrowserPoolState) (t b : Nat)
    (s1 : BrowserPoolState) (hinv : browserPoolInv s)
    (h : getBrowserStep s t = (AcquireOutcome.acquired b, s1)) :
    b ∉ s.inUse ∧ b ∈ s1.inUse ∧ b ∉ s1.available := by
  obtain ⟨hlen, hnav, hnu, hdisj, hmax⟩ := hinv
  obtain ⟨rest, hav, rfl⟩ := getBrowserStep_acquired_shape s t b s1 h
  refine ⟨hdisj b (by rw [hav]; exact List.mem_cons_self b rest), ?_, ?_⟩
  · exact List.mem_cons_self b s.inUse
  · have hn : (b :: rest).Nodup := hav ▸ hnav
    exact (List.nodup_cons.mp hn).1

/-- After a `return_page`, the returned page is no longer in `in_use`. -/
lemma returnPage_not_mem_inUse (f : CleanupFailures) (pg : PageContents)
    (s : PagePoolState) (p : Nat) (hnu : s.inUse.Nodup) :
    p ∉ ((returnPage f pg s p).1).inUse := by
  unfold returnPage
  rw [cleanupPage_no_raise]
  simp only [Bool.false_eq_true, if_false]
  split
  · next hmem =>
      split
      · exact fun hc => ((hnu.mem_erase_iff).mp hc).1 rfl
      · exact fun hc => ((hnu.mem_erase_iff).mp hc).1 rfl
  · next hmem => exact hmem

/-- After a `return_browser`, the returned browser is no longer in
`in_use`. -/
lemma returnBrowser_not_mem_inUse (s : BrowserPoolState) (b : Nat)
    (hnu : s.inUse.Nodup) : b ∉ ((returnBrowser s b).1).inUse := by
  unfold returnBrowser
  split
  · exact fun hc => ((hnu.mem_erase_iff).mp hc).1 rfl
  · next hmem => exact hmem

/-- If the response field first reads non-empty at poll offset `n` (within
the remaining budget) and the element is found there, the API polling loop
returns the re-read attribute value, having polled `n + 1` times and
clicked `n` times. -/
lemma apiPollAux_first_nonempty (w : Widget) :
    ∀ (n attempts fuel : Nat), n < fuel →
      (∀ i, i < n → w.evalVal (attempts + i) = "") →
      w.evalVal (attempts + n) ≠ "" → w.elem (attempts + n) = true →
      apiPollAux w attempts fuel =
        (PollExit.found (w.attrVal (attempts + n)), n + 1, n) := by
  intro n
  induction n with
  | zero =>
      intro attempts fuel hfuel _ hne helem
      obtain ⟨f, rfl⟩ : ∃ f, fuel = f + 1 := ⟨fuel - 1, by omega⟩
      rw [Nat.add_zero] at hne helem
      simp only [apiPollAux]
      rw [if_neg hne, if_pos helem, Nat.add_zero]
  | succ n ih =>
      intro attempts fuel hfuel hempty hne helem
      obtain ⟨f, rfl⟩ : ∃ f, fuel = f + 1 := ⟨fuel - 1, by omega⟩
      have h0 : w.evalVal attempts = "" := by
        have := hempty 0 (Nat.succ_pos n)
        rwa [Nat.add_zero] at this
      have hshift : attempts + 1 + n = attempts + (n + 1) := by omega
      have ih' := ih (attempts + 1) f (by omega)
        (fun i hi => by
          have := hempty (i + 1) (by omega)
          rwa [show attempts + (i + 1) = attempts + 1 + i by omega] at this)
        (by rwa [hshift]) (by rwa [hshift])
      simp only [apiPollAux]
      rw [if_pos h0, ih', hshift]

/-- If the response field reads empty on every poll of the budget, the API
polling loop exits exhausted, having polled and clicked `fuel` times. -/
lemma apiPollAux_all_empty (w : Widget) :
    ∀ (fuel attempts : Nat), (∀ i, i < fuel → w.evalVal (attempts + i) = "") →
      apiPollAux w attempts fuel = (PollExit.exhausted, fuel, fuel) := by
  intro fuel
  induction fuel with
  | zero => intro attempts _; rfl
  | succ f ih =>
      intro attempts hempty
      have h0 : w.evalVal attempts = "" := by
        have := hempty 0 (Nat.succ_pos f)
        rwa [Nat.add_zero] at this
      have ih' := ih (attempts + 1) (fun i hi => by
        have := hempty (i + 1) (by omega)
        rwa [show attempts + (i + 1) = attempts + 1 + i by omega] at this)
      simp only [apiPollAux]
      rw [if_pos h0, ih']

/-- All-empty polling in the async loop: `none` after `fuel` polls, with
`fuel` clicks when visible and none when invisible. -/
lemma asyncPollAux_all_empty (w : Widget) (invisible : Bool) :
    ∀ (fuel attempts : Nat), (∀ i, i < fuel → w.evalVal (attempts + i) = "") →
      asyncPollAux w invisible attempts fuel =
        (none, fuel, if invisible then 0 else fuel) := by
  intro fuel
  induction fuel with
  | zero => intro attempts _; cases invisible <;> rfl
  | succ f ih =>
      intro attempts hempty
      have h0 : w.evalVal attempts = "" := by
        have := hempty 0 (Nat.succ_pos f)
        rwa [Nat.add_zero] at this
      have ih' := ih (attempts + 1) (fun i hi => by
        have := hempty (i + 1) (by omega)
        rwa [show attempts + (i + 1) = attempts + 1 + i by omega] at this)
      simp only [asyncPollAux]
      rw [if_pos h0, ih']
      cases invisible <;> simp

/-- All-empty polling in the sync loop: `none` after `fuel` polls and
`fuel` clicks. -/
lemma syncPollAux_all_empty (w : Widget) :
    ∀ (fuel attempts : Nat), (∀ i, i < fuel → w.evalVal (attempts + i) = "") →
      syncPollAux w attempts fuel = (none, fuel, fuel) := by
  intro fuel
  induction fuel with
  | zero => intro attempts _; rfl
  | succ f ih =>
      intro attempts hempty
      have h0 : w.evalVal attempts = "" := by
        have := hempty 0 (Nat.succ_pos f)
        rwa [Nat.add_zero] at this
      have ih' := ih (attempts + 1) (fun i hi => by
        have := hempty (i + 1) (by omega)
        rwa [show attempts + (i + 1) = attempts + 1 + i by omega] at this)
      simp only [syncPollAux]
      rw [if_pos h0, ih']

/-- Every reachable page-pool state satisfies the invariant. -/
lemma pageReach_inv (s : PagePoolState) (h : PageReach s) : pagePoolInv s := by
  induction h with
  | init => exact pagePoolInv_init
  | acq s t _ ih => exact pagePoolInv_getPageStep s t ih
  | rel s f pg p _ ih => exact pagePoolInv_returnPage s f pg p ih

/-- Every reachable browser-pool state satisfies the invariant. -/
lemma browserReach_inv (s : BrowserPoolState) (h : BrowserReach s) :
    browserPoolInv s := by
  induction h with
  | init => exact browserPoolInv_init
  | acq s t _ ih => exact browserPoolInv_getBrowserStep s t ih
  | rel s b _ ih => exact browserPoolInv_returnBrowser s b ih

/-- Releasing a page at the head of `in_use` while below capacity pools
it at the tail of `available`. -/
lemma returnPage_head (f : CleanupFailures) (pg : PageContents)
    (s : PagePoolState) (p : Nat) (l : List Nat) (hiu : s.inUse = p :: l)
    (hlt : s.available.length < s.maxSize) :
    returnPage f pg s p =
      ({ s with available := s.available ++ [p], inUse := l },
        PageFate.pooled (cleanupPage f pg).1) := by
  have hmem : p ∈ s.inUse := by rw [hiu]; exact List.mem_cons_self p l
  unfold returnPage
  rw [if_pos hmem, cleanupPage_no_raise]
  simp only [Bool.false_eq_true, if_false]
  rw [if_pos hlt, hiu, List.erase_cons_head]

/-- Releasing a browser at the head of `in_use` appends it to
`available`. -/
lemma returnBrowser_head (s : BrowserPoolState) (b : Nat) (l : List Nat)
    (hiu : s.inUse = b :: l) :
    returnBrowser s b =
      ({ s with available := s.available ++ [b], inUse := l }, false) := by
  have hmem : b ∈ s.inUse := by rw [hiu]; exact List.mem_cons_self b l
  unfold returnBrowser
  rw [if_pos hmem, hiu, List.erase_cons_head]

/-- Releasing a page that is not in `in_use` is ignored. -/
lemma returnPage_ignored (f : CleanupFailures) (pg : PageContents)
    (s : PagePoolState) (p : Nat) (h : p ∉ s.inUse) :
    returnPage f pg s p = (s, PageFate.ignored) := by
  unfold returnPage
  rw [if_neg h]

/-- Releasing a browser that is not in `in_use` raises `KeyError` and
leaves the state unchanged. -/
lemma returnBrowser_keyError (s : BrowserPoolState) (b : Nat)
    (h : b ∉ s.inUse) : returnBrowser s b = (s, true) := by
  unfold returnBrowser
  rw [if_neg h]

/-! ## Claims -/

/-- C2: on every pool state reachable by acquire/release operations from
an initialized `PagePool` or `BrowserPool`, `|available| + |in_use| ≤
capacity`, the two collections are duplicate-free and disjoint (every held
handle is in exactly one of them), and an acquire never hands out a handle
that is currently in the in-use set. -/
theorem claim_C2_pool_invariant (s : PagePoolState) (b : BrowserPoolState)
    (hs : PageReach s) (hb : BrowserReach b) :
    (s.available.length + s.inUse.length ≤ s.maxSize ∧
      s.available.Nodup ∧ s.inUse.Nodup ∧ (∀ h ∈ s.available, h ∉ s.inUse)) ∧
    (b.available.length + b.inUse.length ≤ b.maxBrowsers ∧
      b.available.Nodup ∧ b.inUse.Nodup ∧ (∀ h ∈ b.available, h ∉ b.inUse)) ∧
    (∀ (t p : Nat) (s1 : PagePoolState),
        getPageStep s t = (AcquireOutcome.acquired p, s1) →
        p ∉ s.inUse ∧ p ∈ s1.inUse ∧ p ∉ s1.available) ∧
    (∀ (t q : Nat) (b1 : BrowserPoolState),
        getBrowserStep b t = (AcquireOutcome.acquired q, b1) →
        q ∉ b.inUse ∧ q ∈ b1.inUse ∧ q ∉ b1.available) := by
  obtain ⟨h1, h2, h3, h4, _, _, _⟩ := pageReach_inv s hs
  obtain ⟨g1, g2, g3, g4, _⟩ := browserReach_inv b hb
  exact ⟨⟨h1, h2, h3, h4⟩, ⟨g1, g2, g3, g4⟩,
    fun t p s1 h => getPageStep_acquired_fresh s t p s1 (pageReach_inv s hs) h,
    fun t q b1 h => getBrowserStep_acquired_fresh b t q b1 (browserReach_inv b hb) h⟩

/-- C2 witness: the invariant instantiated at the two initial pool
states. -/
theorem claim_C2_pool_invariant_witness :
    (pagePoolInit.available.length + pagePoolInit.inUse.length ≤ pagePoolInit.maxSize ∧
      pagePoolInit.available.Nodup ∧ pagePoolInit.inUse.Nodup ∧
      (∀ h ∈ pagePoolInit.available, h ∉ pagePoolInit.inUse)) ∧
    (browserPoolInit.available.length + browserPoolInit.inUse.length ≤
        browserPoolInit.maxBrowsers ∧
      browserPoolInit.available.Nodup ∧ browserPoolInit.inUse.Nodup ∧
      (∀ h ∈ browserPoolInit.available, h ∉ browserPoolInit.inUse)) ∧
    (∀ (t p : Nat) (s1 : PagePoolState),
        getPageStep pagePoolInit t = (AcquireOutcome.acquired p, s1) →
        p ∉ pagePoolInit.inUse ∧ p ∈ s1.inUse ∧ p ∉ s1.available) ∧
    (∀ (t q : Nat) (b1 : BrowserPoolState),
        getBrowserStep browserPoolInit t = (AcquireOutcome.acquired q, b1) →
        q ∉ browserPoolInit.inUse ∧ q ∈ b1.inUse ∧ q ∉ b1.available) :=
  claim_C2_pool_invariant pagePoolInit browserPoolInit PageReach.init BrowserReach.init

/-- C3 counterexample: `BrowserPool.return_browser` on a handle that is
not in the in-use set is not a no-op — `in_use_browsers.remove` raises
`KeyError` (second component `true`), contradicting the claim that release
of a non-in-use handle is ignored for both pool kinds.  (The state is
nevertheless left unchanged.) -/
theorem claim_C3_counterexample :
    returnBrowser { available := [0], inUse := [], maxBrowsers := 10 } 5 =
      ({ available := [0], inUse := [], maxBrowsers := 10 }, true) := by
  decide

/-- C3 (amended): `PagePool.return_page` ignores a handle not in `in_use`
(state unchanged, page untouched) and a double release equals a single
release; `BrowserPool.return_browser` raises `KeyError` on a handle not in
`in_use` but leaves the pool state unchanged, and a double release leaves
the state identical to a single release (the second raises without
mutating). -/
theorem claim_C3_amended_release_idempotent :
    (∀ (f : CleanupFailures) (pg : PageContents) (s : PagePoolState) (p : Nat),
        p ∉ s.inUse → returnPage f pg s p = (s, PageFate.ignored)) ∧
    (∀ (f f2 : CleanupFailures) (pg pg2 : PageContents) (s : PagePoolState)
        (p : Nat), s.inUse.Nodup →
        (returnPage f2 pg2 (returnPage f pg s p).1 p).1 = (returnPage f pg s p).1) ∧
    (∀ (s : BrowserPoolState) (b : Nat),
        b ∉ s.inUse → returnBrowser s b = (s, true)) ∧
    (∀ (s : BrowserPoolState) (b : Nat), s.inUse.Nodup →
        returnBrowser (returnBrowser s b).1 b = ((returnBrowser s b).1, true)) := by
  refine ⟨?_, ?_, ?_, ?_⟩
  · intro f pg s p hni
    exact returnPage_ignored f pg s p hni
  · intro f f2 pg pg2 s p hnu
    rw [returnPage_ignored f2 pg2 _ p (returnPage_not_mem_inUse f pg s p hnu)]
  · intro s b hni
    exact returnBrowser_keyError s b hni
  · intro s b hnu
    exact returnBrowser_keyError _ b (returnBrowser_not_mem_inUse s b hnu)

/-- C3 witness: the amended release behaviour at concrete pools. -/
theorem claim_C3_amended_witness :
    returnPage noFailures cleanContents (⟨[1], [2], 3, 10⟩ : PagePoolState) 7 =
      ((⟨[1], [2], 3, 10⟩ : PagePoolState), PageFate.ignored) ∧
    (returnPage noFailures cleanContents
      (returnPage noFailures cleanContents
        (⟨[], [2], 3, 10⟩ : PagePoolState) 2).1 2).1 =
      (returnPage noFailures cleanContents
        (⟨[], [2], 3, 10⟩ : PagePoolState) 2).1 ∧
    returnBrowser (⟨[1], [2], 10⟩ : BrowserPoolState) 7 =
      ((⟨[1], [2], 10⟩ : BrowserPoolState), true) ∧
    returnBrowser
        (returnBrowser (⟨[], [2], 10⟩ : BrowserPoolState) 2).1 2 =
      ((returnBrowser (⟨[], [2], 10⟩ : BrowserPoolState) 2).1, true) :=
  ⟨claim_C3_amended_release_idempotent.1 _ _ _ 7 (by decide),
   claim_C3_amended_release_idempotent.2.1 _ _ _ _ _ 2 (by decide),
   claim_C3_amended_release_idempotent.2.2.1 _ 7 (by decide),
   claim_C3_amended_release_idempotent.2.2.2 _ 2 (by decide)⟩

/-- C4 counterexample: on a freshly constructed `BrowserPool` (both
collections empty, as built by `BrowserPool.__init__`), the in-use count
is below capacity and `available` is empty, yet `get_browser` waits
instead of creating a new handle — the claimed create-below-capacity
branch of the shared acquire contract does not exist in
`BrowserPool.get_browser`. -/
theorem claim_C4_counterexample :
    (getBrowserStep { available := [], inUse := [], maxBrowsers := 10 } 0).1 =
      AcquireOutcome.waits ∧
    ({ available := [], inUse := [], maxBrowsers := 10 } :
        BrowserPoolState).inUse.length <
      ({ available := [], inUse := [], maxBrowsers := 10 } :
        BrowserPoolState).maxBrowsers := by
  exact ⟨rfl, by decide⟩

/-- C4 (amended): `PagePool.get_page` follows the full contract — FIFO pop
of the oldest available handle, else creation of a fresh handle while
below capacity, else waiting (within the wait bound).
`BrowserPool.get_browser` pops FIFO when a handle is available and
otherwise waits unconditionally: it never creates a handle, even when the
in-use count is below capacity. -/
theorem claim_C4_amended_acquire_contract :
    (∀ (s : PagePoolState) (t p : Nat) (rest : List Nat),
        s.available = p :: rest →
        getPageStep s t = (AcquireOutcome.acquired p,
          { s with available := rest, inUse := p :: s.inUse })) ∧
    (∀ (s : PagePoolState) (t : Nat), s.available = [] →
        s.inUse.length < s.maxSize →
        getPageStep s t = (AcquireOutcome.acquired s.nextId,
          { s with inUse := s.nextId :: s.inUse, nextId := s.nextId + 1 })) ∧
    (∀ (s : PagePoolState) (t : Nat), s.available = [] →
        ¬ s.inUse.length < s.maxSize → t ≤ pageMaxWaitTime →
        getPageStep s t = (AcquireOutcome.waits, s)) ∧
    (∀ (b : BrowserPoolState) (t q : Nat) (rest : List Nat),
        b.available = q :: rest →
        getBrowserStep b t = (AcquireOutcome.acquired q,
          { b with available := rest, inUse := q :: b.inUse })) ∧
    (∀ (b : BrowserPoolState) (t : Nat), b.available = [] →
        getBrowserStep b t = (AcquireOutcome.waits, b)) := by
  refine ⟨?_, ?_, ?_, ?_, ?_⟩
  · intro s t p rest hav
    unfold getPageStep
    rw [hav]
  · intro s t hav hlt
    unfold getPageStep
    rw [hav]
    simp only [if_pos hlt]
  · intro s t hav hge hle
    unfold getPageStep
    rw [hav]
    rw [if_neg hge, if_neg (by omega)]
  · intro b t q rest hav
    unfold getBrowserStep
    rw [hav]
  · intro b t hav
    unfold getBrowserStep
    rw [hav]

/-- C4 witness: the amended acquire contract at concrete pool states. -/
theorem claim_C4_amended_witness :
    getPageStep (⟨[3, 4], [5], 6, 10⟩ : PagePoolState) 0 =
      (AcquireOutcome.acquired 3, (⟨[4], [3, 5], 6, 10⟩ : PagePoolState)) ∧
    getPageStep (⟨[], [5], 6, 10⟩ : PagePoolState) 0 =
      (AcquireOutcome.acquired 6, (⟨[], [6, 5], 7, 10⟩ : PagePoolState)) ∧
    getPageStep fullPagePool 30 = (AcquireOutcome.waits, fullPagePool) ∧
    getBrowserStep (⟨[3], [5], 10⟩ : BrowserPoolState) 0 =
      (AcquireOutcome.acquired 3, (⟨[], [3, 5], 10⟩ : BrowserPoolState)) ∧
    getBrowserStep (⟨[], [5], 10⟩ : BrowserPoolState) 999 =
      (AcquireOutcome.waits, (⟨[], [5], 10⟩ : BrowserPoolState)) :=
  ⟨claim_C4_amended_acquire_contract.1 _ 0 3 [4] rfl,
   claim_C4_amended_acquire_contract.2.1 _ 0 rfl (by decide),
   claim_C4_amended_acquire_contract.2.2.1 _ 30 rfl (by decide) (by decide),
   claim_C4_amended_acquire_contract.2.2.2.1 _ 0 3 [] rfl,
   claim_C4_amended_acquire_contract.2.2.2.2 _ 999 rfl⟩

/-- C5 counterexample: the `BrowserPool.get_browser` wait has no timeout
condition at all — no bound exists past which the acquire fails with a
timeout; it keeps waiting at every elapsed time (here on a pool whose ten
browsers are all in use). -/
theorem claim_C5_counterexample :
    ¬ ∃ bound : Nat, ∀ t : Nat, bound < t →
        (getBrowserStep fullBrowserPool t).1 = AcquireOutcome.timesOut := by
  rintro ⟨bound, h⟩
  have hc := h (bound + 1) (Nat.lt_succ_self bound)
  simp [getBrowserStep, fullBrowserPool] at hc

/-- C5 (amended): `PagePool.get_page` re-checks on a fixed 0.5 s poll
interval and, when it must wait (no page available and the pool at
capacity), times out exactly when the elapsed time exceeds the 30 s
`max_wait_time`; `BrowserPool.get_browser` re-checks on a fixed 0.1 s
interval but its wait is unbounded — it never produces a timeout. -/
theorem claim_C5_amended_wait_bounds :
    (∀ (s : PagePoolState) (t : Nat), s.available = [] →
        ¬ s.inUse.length < s.maxSize →
        ((getPageStep s t).1 = AcquireOutcome.timesOut ↔ pageMaxWaitTime < t)) ∧
    pageMaxWaitTime = 30 ∧ pagePollIntervalDs = 5 ∧
    (∀ (b : BrowserPoolState) (t : Nat),
        (getBrowserStep b t).1 ≠ AcquireOutcome.timesOut) ∧
    browserPollIntervalDs = 1 := by
  refine ⟨?_, rfl, rfl, ?_, rfl⟩
  · intro s t hav hge
    unfold getPageStep
    rw [hav]
    rw [if_neg hge]
    constructor
    · intro h
      by_contra hc
      rw [if_neg hc] at h
      exact AcquireOutcome.noConfusion h
    · intro h
      rw [if_pos h]
  · intro b t
    obtain ⟨av, iu, mx⟩ := b
    rcases av with _ | ⟨q, rest⟩ <;> simp [getBrowserStep]

/-- C5 witness: the page-pool wait times out just past 30 s (and not at
30 s), while the browser-pool wait never does. -/
theorem claim_C5_amended_wait_bounds_witness :
    ((getPageStep fullPagePool 31).1 = AcquireOutcome.timesOut ↔
      pageMaxWaitTime < 31) ∧
    (getBrowserStep fullBrowserPool 1000000).1 ≠ AcquireOutcome.timesOut :=
  ⟨claim_C5_amended_wait_bounds.1 _ 31 rfl (by decide),
   claim_C5_amended_wait_bounds.2.2.2.1 _ 1000000⟩

/-- C1 counterexample: a terminal run of `_solve_turnstile` in which the
page pool had nothing available, so `get_page` created a fresh page; both
handles are returned (page first), but post-call page-pool occupancy is 2
while pre-call occupancy was 1 — occupancy is not preserved across every
terminal outcome, contradicting the claim. -/
theorem claim_C1_counterexample :
    solveTurnstile (⟨[7], [], 10⟩ : BrowserPoolState)
        (⟨[], [0], 1, 10⟩ : PagePoolState) cleanContents ProtoRun.runs
        widgetEmpty noFailures 0 0 5 =
      some (⟨none, none, "failure", some "Max attempts reached without solution"⟩,
        (⟨[7], [], 10⟩ : BrowserPoolState), (⟨[1], [0], 2, 10⟩ : PagePoolState),
        [ReleaseKind.page, ReleaseKind.browser]) ∧
    pOcc (⟨[1], [0], 2, 10⟩ : PagePoolState) = 2 ∧
    pOcc (⟨[], [0], 1, 10⟩ : PagePoolState) = 1 := by
  refine ⟨by decide, rfl, rfl⟩

/-- C1 (amended): whenever `_solve_turnstile` checked out both a browser
and a page, every terminal outcome (success, attempt exhaustion, or an
exception during navigation or polling) returns the page to its pool first
and then the browser; browser-pool occupancy is restored to its pre-call
value, and page-pool occupancy is restored when the page was popped from
`available` (it grows by one when `get_page` created the page, since the
new page is pooled on return). -/
theorem claim_C1_amended_release_order (bp bp1 : BrowserPoolState)
    (pp pp1 : PagePoolState) (pg : PageContents) (nav : ProtoRun) (w : Widget)
    (f : CleanupFailures) (tB tP elapsed b p : Nat)
    (hb : getBrowserStep bp tB = (AcquireOutcome.acquired b, bp1))
    (hp : getPageStep pp tP = (AcquireOutcome.acquired p, pp1))
    (hinv : pagePoolInv pp) :
    ∃ r bp2 pp2,
      solveTurnstile bp pp pg nav w f tB tP elapsed =
        some (r, bp2, pp2, [ReleaseKind.page, ReleaseKind.browser]) ∧
      bOcc bp2 = bOcc bp ∧
      (pp.available ≠ [] → pOcc pp2 = pOcc pp) ∧
      (pp.available = [] → pOcc pp2 = pOcc pp + 1) := by
  obtain ⟨hlen, hnav, hnu, hdisj, hbav, hbu, hmax⟩ := hinv
  obtain ⟨brest, hbavail, rfl⟩ := getBrowserStep_acquired_shape bp tB b bp1 hb
  have hrb := returnBrowser_head
    { bp with available := brest, inUse := b :: bp.inUse } b bp.inUse rfl
  rcases getPageStep_acquired_shape pp tP p pp1 hp with ⟨prest, hpavail, rfl⟩ |
    ⟨hpavail, hplt, rfl, rfl⟩
  · have hplt : prest.length < pp.maxSize := by
      rw [hpavail] at hlen
      simp only [List.length_cons] at hlen
      omega
    have hrp := returnPage_head f pg
      { pp with available := prest, inUse := p :: pp.inUse } p pp.inUse rfl hplt
    refine ⟨(match nav with
        | ProtoRun.throws e => ⟨none, none, "error", some e⟩
        | ProtoRun.runs => apiMapExit (apiPoll w).1 elapsed),
      ⟨brest ++ [b], bp.inUse, bp.maxBrowsers⟩,
      ⟨prest ++ [p], pp.inUse, pp.nextId, pp.maxSize⟩, ?_, ?_, ?_, ?_⟩
    · unfold solveTurnstile
      rw [hb, hp]
      dsimp only
      rw [hrp, hrb]
      rfl
    · simp [bOcc, hbavail]
    · intro _
      simp [pOcc, hpavail]
    · intro hc
      rw [hpavail] at hc
      simp at hc
  · have hrp := returnPage_head f pg
      { pp with inUse := pp.nextId :: pp.inUse, nextId := pp.nextId + 1 }
      pp.nextId pp.inUse rfl
      (by show pp.available.length < pp.maxSize
          rw [hpavail]
          simp only [List.length_nil]
          omega)
    refine ⟨(match nav with
        | ProtoRun.throws e => ⟨none, none, "error", some e⟩
        | ProtoRun.runs => apiMapExit (apiPoll w).1 elapsed),
      ⟨brest ++ [b], bp.inUse, bp.maxBrowsers⟩,
      ⟨pp.available ++ [pp.nextId], pp.inUse, pp.nextId + 1, pp.maxSize⟩,
      ?_, ?_, ?_, ?_⟩
    · unfold solveTurnstile
      rw [hb, hp]
      dsimp only
      rw [hrp, hrb]
      rfl
    · simp [bOcc, hbavail]
    · intro hc
      exact absurd hpavail hc
    · intro _
      simp [pOcc, hpavail]
      omega

/-- C1 witness: the amended release behaviour on a run that popped the
pool's one available page. -/
theorem claim_C1_amended_witness :
    ∃ r bp2 pp2,
      solveTurnstile (⟨[7], [], 10⟩ : BrowserPoolState) pagePoolInit
          cleanContents ProtoRun.runs widgetEmpty noFailures 0 0 5 =
        some (r, bp2, pp2, [ReleaseKind.page, ReleaseKind.browser]) ∧
      bOcc bp2 = bOcc (⟨[7], [], 10⟩ : BrowserPoolState) ∧
      (pagePoolInit.available ≠ [] → pOcc pp2 = pOcc pagePoolInit) ∧
      (pagePoolInit.available = [] → pOcc pp2 = pOcc pagePoolInit + 1) :=
  claim_C1_amended_release_order (⟨[7], [], 10⟩ : BrowserPoolState)
    (⟨[], [7], 10⟩ : BrowserPoolState) pagePoolInit
    (⟨[], [0], 1, 10⟩ : PagePoolState) cleanContents ProtoRun.runs widgetEmpty
    noFailures 0 0 5 7 0 rfl rfl pagePoolInv_init

/-- C6: `_cleanup_page` swallows every exception (its body is wrapped in
`try ... except Exception`), so when the navigate-to-blank step raises,
`return_page` does not see a cleanup failure: the page — still carrying
its cookies and storage — is appended to `available` for reuse instead of
being destroyed, contradicting the documented quarantine intent. -/
theorem claim_C6_cleanup_failure_page_reused :
    (cleanupPage gotoFailure dirtyContents).2 = false ∧
    returnPage gotoFailure dirtyContents (⟨[], [0], 1, 10⟩ : PagePoolState) 0 =
      ((⟨[0], [], 1, 10⟩ : PagePoolState), PageFate.pooled dirtyContents) := by
  decide

/-- C7: if the widget's response field first reads non-empty on poll
`n + 1` (0-indexed offset `n`, within the 10-attempt budget) and the
element is found, `_solve_turnstile` re-reads the value via
`get_attribute` and returns a success result carrying it, having consumed
exactly `n + 1` polls and `n` resize-and-click actions — nothing happens
after the non-empty observation. -/
theorem claim_C7_first_nonempty_success (w : Widget) (n elapsed : Nat)
    (invisible : Bool) (hn : n < 10)
    (hempty : ∀ i, i < n → w.evalVal i = "") (hne : w.evalVal n ≠ "")
    (helem : w.elem n = true) :
    apiSolveBody w invisible elapsed =
      (⟨w.attrVal n, some elapsed, "success", none⟩, n + 1, n) := by
  unfold apiSolveBody apiPoll
  rw [apiPollAux_first_nonempty w n 0 10 hn
    (fun i hi => by simpa using hempty i hi)
    (by simpa using hne) (by simpa using helem)]
  simp only [Nat.zero_add]
  rfl

/-- C7 witness: a widget that turns non-empty on the third poll yields a
success result carrying the re-read value with 3 polls and 2 clicks. -/
theorem claim_C7_witness :
    apiSolveBody widgetThird false 7 =
      (⟨some "tok", some 7, "success", none⟩, 3, 2) :=
  claim_C7_first_nonempty_success widgetThird 2 7 false (by decide)
    (fun i hi => by
      interval_cases i <;> rfl)
    (by decide) rfl

/-- C8: a widget whose response field is empty on all 10 polls makes all
three solvers return a failure result with no token and a
max-attempts-reached reason. -/
theorem claim_C8_exhaustion_failure (w : Widget) (elapsed : Nat)
    (invisible : Bool) (hempty : ∀ i, i < 10 → w.evalVal i = "") :
    (apiSolveBody w invisible elapsed).1 =
      ⟨none, none, "failure", some "Max attempts reached without solution"⟩ ∧
    asyncSolveOk w invisible elapsed =
      ⟨none, elapsed, "failure",
        some "Max attempts reached without token retrieval"⟩ ∧
    syncSolve (Except.ok (syncGetTurnstileResponse w).1) elapsed =
      Except.ok (⟨none, elapsed, "failure",
        some "Max attempts reached without token retrieval"⟩ : TurnstileResult) := by
  have hsh : ∀ i, i < 10 → w.evalVal (0 + i) = "" := fun i hi => by
    simpa using hempty i hi
  refine ⟨?_, ?_, ?_⟩
  · unfold apiSolveBody apiPoll
    rw [apiPollAux_all_empty w 10 0 hsh]
    rfl
  · unfold asyncSolveOk asyncGetTurnstileResponse
    rw [asyncPollAux_all_empty w invisible 10 0 hsh]
    rfl
  · unfold syncGetTurnstileResponse
    rw [syncPollAux_all_empty w 10 0 hsh]
    rfl

/-- C8 witness: the exhaustion results on the never-filling widget. -/
theorem claim_C8_witness :
    (apiSolveBody widgetEmpty false 5).1 =
      ⟨none, none, "failure", some "Max attempts reached without solution"⟩ ∧
    asyncSolveOk widgetEmpty false 5 =
      ⟨none, 5, "failure",
        some "Max attempts reached without token retrieval"⟩ ∧
    syncSolve (Except.ok (syncGetTurnstileResponse widgetEmpty).1) 5 =
      Except.ok (⟨none, 5, "failure",
        some "Max attempts reached without token retrieval"⟩ : TurnstileResult) :=
  claim_C8_exhaustion_failure widgetEmpty 5 false (fun i _ => rfl)

/-- C9 counterexample: in the sync solver, an error raised during the
protocol propagates out of `TurnstileSolver.solve` (there is no `except`
clause, only `try/finally`), so the caller receives an exception rather
than an `"error"`-status result — the claim fails for the sync resolver. -/
theorem claim_C9_counterexample :
    syncSolve (Except.error "nav failed") 1 = Except.error "nav failed" := rfl

/-- C9 (amended): errors raised by the collaborator layer during
navigation or polling are caught and converted into `"error"`-status
results carrying the stringified cause by the async solver and by the
pooled API resolver (which still releases page then browser); the sync
solver re-raises them to its caller. -/
theorem claim_C9_amended_error_boundary (e : String) (elapsed : Nat)
    (bp bp1 : BrowserPoolState) (pp pp1 : PagePoolState) (pg : PageContents)
    (w : Widget) (f : CleanupFailures) (tB tP b p : Nat)
    (hb : getBrowserStep bp tB = (AcquireOutcome.acquired b, bp1))
    (hp : getPageStep pp tP = (AcquireOutcome.acquired p, pp1))
    (hinv : pagePoolInv pp) :
    asyncSolve (Except.error e) elapsed =
      ⟨none, elapsed, "error", some e⟩ ∧
    (∃ bp2 pp2,
      solveTurnstile bp pp pg (ProtoRun.throws e) w f tB tP elapsed =
        some (⟨none, none, "error", some e⟩, bp2, pp2,
          [ReleaseKind.page, ReleaseKind.browser])) ∧
    syncSolve (Except.error e) elapsed = Except.error e := by
  refine ⟨rfl, ?_, rfl⟩
  obtain ⟨hlen, hnav, hnu, hdisj, hbav, hbu, hmax⟩ := hinv
  obtain ⟨brest, hbavail, rfl⟩ := getBrowserStep_acquired_shape bp tB b bp1 hb
  have hrb := returnBrowser_head
    { bp with available := brest, inUse := b :: bp.inUse } b bp.inUse rfl
  rcases getPageStep_acquired_shape pp tP p pp1 hp with ⟨prest, hpavail, rfl⟩ |
    ⟨hpavail, hplt, rfl, rfl⟩
  · have hplt : prest.length < pp.maxSize := by
      rw [hpavail] at hlen
      simp only [List.length_cons] at hlen
      omega
    have hrp := returnPage_head f pg
      { pp with available := prest, inUse := p :: pp.inUse } p pp.inUse rfl hplt
    refine ⟨⟨brest ++ [b], bp.inUse, bp.maxBrowsers⟩,
      ⟨prest ++ [p], pp.inUse, pp.nextId, pp.maxSize⟩, ?_⟩
    unfold solveTurnstile
    rw [hb, hp]
    dsimp only
    rw [hrp, hrb]
    rfl
  · have hrp := returnPage_head f pg
      { pp with inUse := pp.nextId :: pp.inUse, nextId := pp.nextId + 1 }
      pp.nextId pp.inUse rfl
      (by show pp.available.length < pp.maxSize
          rw [hpavail]
          simp only [List.length_nil]
          omega)
    refine ⟨⟨brest ++ [b], bp.inUse, bp.maxBrowsers⟩,
      ⟨pp.available ++ [pp.nextId], pp.inUse, pp.nextId + 1, pp.maxSize⟩, ?_⟩
    unfold solveTurnstile
    rw [hb, hp]
    dsimp only
    rw [hrp, hrb]
    rfl

/-- C9 witness: the amended error boundary at concrete inputs. -/
theorem claim_C9_amended_witness :
    asyncSolve (Except.error "boom") 3 =
      ⟨none, 3, "error", some "boom"⟩ ∧
    (∃ bp2 pp2,
      solveTurnstile (⟨[7], [], 10⟩ : BrowserPoolState) pagePoolInit
          cleanContents (ProtoRun.throws "boom") widgetEmpty noFailures 0 0 3 =
        some (⟨none, none, "error", some "boom"⟩, bp2, pp2,
          [ReleaseKind.page, ReleaseKind.browser])) ∧
    syncSolve (Except.error "boom") 3 = Except.error "boom" :=
  claim_C9_amended_error_boundary "boom" 3 (⟨[7], [], 10⟩ : BrowserPoolState)
    (⟨[], [7], 10⟩ : BrowserPoolState) pagePoolInit
    (⟨[], [0], 1, 10⟩ : PagePoolState) cleanContents widgetEmpty noFailures
    0 0 7 0 rfl rfl pagePoolInv_init

/-- C10: the `invisible` argument of `_solve_turnstile` has no effect —
the result and the poll/click counts are identical for any two values of
the flag, and the polling loop clicks unconditionally (10 clicks on a
never-filling widget), whereas the async solver's loop skips all clicks
when `invisible` is set (0 clicks vs 10 on the same widget). -/
theorem claim_C10_invisible_unused :
    (∀ (w : Widget) (inv1 inv2 : Bool) (elapsed : Nat),
        apiSolveBody w inv1 elapsed = apiSolveBody w inv2 elapsed) ∧
    (apiSolveBody widgetEmpty true 0).2.2 = 10 ∧
    (asyncGetTurnstileResponse widgetEmpty true).2.2 = 0 ∧
    (asyncGetTurnstileResponse widgetEmpty false).2.2 = 10 := by
  refine ⟨fun w i1 i2 t => rfl, ?_, ?_, ?_⟩ <;> decide

end TurnstileSolver
